import Mathlib

/-!
Shallow embedding of the rqbit web UI client
(crates/librqbit/webui/src/index.tsx) and proofs about its polling
schedulers, request/error pipeline and upload query construction.

The TypeScript source is embedded as executable Lean definitions.
Browser/platform primitives (fetch, JSON.parse, setTimeout and the
single-threaded event loop) are modelled explicitly: a fetch outcome is
an input datum, JSON.parse results are carried alongside the raw body
text, and the timer machinery is modelled as a small-step machine over
scheduler states driven by event lists.
-/

namespace RqbitWebui

/-! ### Data model (interfaces of index.tsx) -/

/-- Embeds `interface TorrentId { id: number; info_hash: string }`. -/
structure TorrentId where
  id : Nat
  info_hash : String
deriving Repr, DecidableEq

/-- Embeds the `snapshot` part of `interface TorrentStats` (only the
fields the claims read; the remaining counters are carried verbatim). -/
structure StatsSnapshot where
  have_bytes : Nat
  downloaded_and_checked_bytes : Nat
  fetched_bytes : Nat
  uploaded_bytes : Nat
  initially_needed_bytes : Nat
  remaining_bytes : Nat
  total_bytes : Nat
deriving Repr, DecidableEq

/-- Embeds `interface TorrentStats` (the snapshot is what the polling
policy reads; rates and ETA strings are opaque to the claims). -/
structure TorrentStats where
  snapshot : StatsSnapshot
deriving Repr, DecidableEq

/-- Embeds `interface ErrorType`: all fields but `text` are optional in
the TypeScript interface, and `makeRequest` populates them gradually. -/
structure ErrorType where
  method : Option String := none
  path : Option String := none
  status : Option Nat := none
  statusText : Option String := none
  text : String := ""
deriving Repr, DecidableEq

/-! ### torrentIsDone and the stats update tick (lines 179-190, 535-537) -/

/-- Embeds `function torrentIsDone(stats) { return stats.snapshot.have_bytes == stats.snapshot.total_bytes; }`. -/
def torrentIsDone (stats : TorrentStats) : Bool :=
  stats.snapshot.have_bytes == stats.snapshot.total_bytes

/-- Embeds the `update` closure of the `Torrent` component.  The result
of `ctx.requests.getTorrentStats` is the input `fetchResult`; the React
state `statsResponse` is threaded explicitly.  On fulfilment the handler
stores the stats and returns `finishedInterval` or `liveInterval`; on
rejection the second handler returns `errorInterval` and the stored
stats are untouched. -/
def update (fetchResult : Except ErrorType TorrentStats)
    (statsResponse : TorrentStats) : TorrentStats × Nat :=
  let errorInterval := 10000
  let liveInterval := 500
  let finishedInterval := 5000
  match fetchResult with
  | .ok stats => (stats, if torrentIsDone stats then finishedInterval else liveInterval)
  | .error _ => (statsResponse, errorInterval)

/-! ### Registry poller tick (lines 292-313) -/

/-- Registry-level React state of the `Root` component: `torrents`
(initially `null`, hence `Option`), `otherError` and `torrentsLoading`. -/
structure RegistryState where
  torrents : Option (List TorrentId)
  otherError : Option ErrorType
  torrentsLoading : Bool
deriving Repr, DecidableEq

/-- Embeds `refreshTorrents` (lines 292-297): set the loading flag, await
the task-list request, clear the flag in `finally`; on success replace
`torrents` with the fetched list; on rejection `setTorrents` is never
reached and the rejection propagates to the caller (second component). -/
def refreshTorrents (fetchResult : Except ErrorType (List TorrentId))
    (s : RegistryState) : RegistryState × Except ErrorType (List TorrentId) :=
  let s₁ := { s with torrentsLoading := true }
  match fetchResult with
  | .ok torrents =>
      ({ s₁ with torrentsLoading := false, torrents := some torrents }, .ok torrents)
  | .error e => ({ s₁ with torrentsLoading := false }, .error e)

/-- Embeds the registry tick closure passed to `customSetInterval` in
`Root` (lines 301-311): `try { await refreshTorrents(); setOtherError(null);
return interval } catch (e) { setOtherError(e); return 5000 }` with
`interval = 500`.  Returns the next state and the returned interval. -/
def registryTick (fetchResult : Except ErrorType (List TorrentId))
    (s : RegistryState) : RegistryState × Nat :=
  let interval := 500
  match refreshTorrents fetchResult s with
  | (s₁, .ok _) => ({ s₁ with otherError := none }, interval)
  | (s₁, .error e) => ({ s₁ with otherError := some e }, 5000)

/-! ### File selection modal (lines 436-514) -/

/-- Embeds the selection reset effect (lines 444-446):
`setSelectedFiles((fileList || []).map((_, id) => id))`, i.e. the list of
all zero-based indices of the manifest. -/
def resetSelection (fileListLength : Nat) : List Nat :=
  List.range fileListLength

/-- Embeds `handleToggleFile` (lines 452-458): if the index is in the
selection, filter it out; otherwise append it at the end of the array. -/
def handleToggleFile (selectedFiles : List Nat) (fileIndex : Nat) : List Nat :=
  if selectedFiles.contains fileIndex then
    selectedFiles.filter (fun index => index != fileIndex)
  else
    selectedFiles ++ [fileIndex]

/-- Embeds `getSelectedFilesQueryParam` inside `handleUpload` (lines
461-467): `allPresent` is folded over the manifest indices `0..n-1`
(the JS `fileList.map((_, id) => ...)` side-effecting accumulation), and
the parameter value is `selectedFiles.join(',')` — the selection array in
its current order. -/
def getSelectedFilesQueryParam (fileListLength : Nat) (selectedFiles : List Nat) : String :=
  let allPresent := (List.range fileListLength).all (fun id => selectedFiles.contains id)
  if allPresent then "" else "&only_files=" ++ String.intercalate "," (selectedFiles.map toString)

/-- Embeds the url template in `handleUpload` (line 469). -/
def uploadUrl (fileListLength : Nat) (selectedFiles : List Nat) : String :=
  "/torrents?overwrite=true" ++ getSelectedFilesQueryParam fileListLength selectedFiles

/-- Embeds the OK button's `disabled` expression (line 508):
`fileListLoading || uploading || selectedFiles.length == 0`. -/
def okButtonDisabled (fileListLoading uploading : Bool) (selectedFiles : List Nat) : Bool :=
  fileListLoading || uploading || selectedFiles.length == 0

/-- Invariant of the selection state while the dialog is open: no
duplicate indices and every index within the manifest bounds. -/
def SelectionInv (selectedFiles : List Nat) (fileListLength : Nat) : Prop :=
  selectedFiles.Nodup ∧ ∀ i ∈ selectedFiles, i < fileListLength

/-! ### JSON values and the platform primitives used by makeRequest

`JSON.parse`, `JSON.stringify` and JS property access are browser
builtins; they are modelled here on a standard JSON value type. -/

/-- A parsed JSON value (the result of a successful `JSON.parse`). -/
inductive Json where
  | null
  | bool (b : Bool)
  | num (n : Int)
  | str (s : String)
  | arr (elems : List Json)
  | obj (fields : List (String × Json))
deriving Repr

/-- First binding of a key in a parsed object's property table
(objects produced by `JSON.parse` have no duplicate keys). -/
def lookupField : List (String × Json) → String → Option Json
  | [], _ => none
  | (k, v) :: rest, key => if k == key then some v else lookupField rest key

/-- Models the JS property access `json.human_readable` performed at line
272 on the value returned by `JSON.parse`: on an object it yields the
property or `undefined` (`none`); on `null` it throws a TypeError
(`Except.error`, caught by the surrounding `catch`); on any other JSON
value (number, string, boolean, array) it yields `undefined`. -/
def getProperty : Json → String → Except Unit (Option Json)
  | .null, _ => .error ()
  | .obj fields, key => .ok (lookupField fields key)
  | _, _ => .ok none

/-- Whether a JSON value is `null`. -/
def Json.isNull : Json → Bool
  | .null => true
  | _ => false

/-- Models JSON string escaping inside `JSON.stringify` (quote and
backslash; enough for the bodies the claims exercise). -/
def escapeJsonString (s : String) : String :=
  s.foldl
    (fun acc c =>
      if c == '\\' then acc ++ "\\\\"
      else if c == '"' then acc ++ "\\\""
      else acc.push c) ""

/-- Indentation of `n` spaces. -/
def padding (n : Nat) : String :=
  String.mk (List.replicate n ' ')

/-- Models `JSON.stringify(json, null, 2)` (line 272): the whole value
serialized with two-space indentation. -/
def renderJson (indent : Nat) : Json → String
  | .null => "null"
  | .bool true => "true"
  | .bool false => "false"
  | .num n => toString n
  | .str s => "\"" ++ escapeJsonString s ++ "\""
  | .arr [] => "[]"
  | .arr (e :: es) =>
      "[\n" ++
        String.intercalate ",\n"
          (((e :: es).attach).map
            (fun x => padding (indent + 2) ++ renderJson (indent + 2) x.1)) ++
        "\n" ++ padding indent ++ "]"
  | .obj [] => "\x7b\x7d"
  | .obj (f :: fs) =>
      "\x7b\n" ++
        String.intercalate ",\n"
          (((f :: fs).attach).map
            (fun x => padding (indent + 2) ++ "\"" ++ escapeJsonString x.1.1 ++ "\": " ++
              renderJson (indent + 2) x.1.2)) ++
        "\n" ++ padding indent ++ "\x7d"
termination_by j => sizeOf j
decreasing_by
  · simp_wf
    have h := List.sizeOf_lt_of_mem x.2
    simp_all
    omega
  · simp_wf
    obtain ⟨⟨k, v⟩, hmem⟩ := x
    have h := List.sizeOf_lt_of_mem hmem
    simp_all
    omega

/-- `JSON.stringify(json, null, 2)` starting at the outermost level. -/
def stringifyPretty (j : Json) : String :=
  renderJson 0 j

/-- Models JS string coercion of a JSON value.  The value of
`json.human_readable` is assigned to the string field `error.text`
(line 272); for string values — the only ones the server convention and
the claims exercise — this coercion is the identity. -/
def jsToString : Json → String
  | .null => "null"
  | .bool true => "true"
  | .bool false => "false"
  | .num n => toString n
  | .str s => s
  | .arr es =>
      String.intercalate ","
        (es.attach.map (fun x => if x.1.isNull then "" else jsToString x.1))
  | .obj _ => "[object Object]"
termination_by j => sizeOf j
decreasing_by
  all_goals
    simp_wf
    have h := List.sizeOf_lt_of_mem x.2
    omega

/-! ### makeRequest (lines 232-281) -/

/-- A response body together with the result of `JSON.parse` on its text
(`none` when parsing throws a SyntaxError).  `response.text()` and the
parse are platform builtins, so the parse result is part of the modelled
input rather than recomputed in Lean. -/
structure HttpBody where
  raw : String
  parsed : Option Json

/-- Result of `await fetch(url, options)`: either the fetch promise
rejected (transport failure: DNS, refused connection, timeout before
headers), or a response arrived carrying a status, status text and a
body. -/
inductive FetchOutcome where
  | failure
  | response (status : Nat) (statusText : String) (body : HttpBody)

/-- Models `Response.ok` of the fetch API: status in the inclusive range
200-299. -/
def responseOk (status : Nat) : Bool :=
  200 ≤ status && status ≤ 299

/-- Settlement of the promise returned by `makeRequest`: fulfilment with
the parsed JSON result, rejection with the `error` record built by the
function, or rejection with an unnormalized platform exception (the
SyntaxError thrown by `await response.json()` at line 279, which no
handler in `makeRequest` catches). -/
inductive RequestResult where
  | ok (json : Json)
  | errRecord (e : ErrorType)
  | jsException (message : String)

/-- Whether a `makeRequest` rejection carries the unified ErrorType
record rather than a raw exception (fulfilment counts as normalized). -/
def RequestResult.isNormalized : RequestResult → Bool
  | .jsException _ => false
  | _ => true

/-- Whether the result is a rejection carrying an ErrorType record. -/
def RequestResult.isErrorRecord : RequestResult → Bool
  | .errRecord _ => true
  | _ => false

/-- Embeds `makeRequest` (lines 232-281).  The `error` record starts
with `method`, `path` and empty `text`; on transport failure it is
rejected as is (no status recorded); otherwise `status`/`statusText` are
recorded, and on a non-ok status the `text` is chosen by the ladder of
lines 269-275: `human_readable` property of the parsed body if the body
parses and the access yields a defined value, else the pretty-printed
JSON, and the raw body text when `JSON.parse` (or the property access on
a parsed `null`) throws.  On an ok status the body is parsed by
`response.json()` with no try/catch around it.  The `maybeShowError`
UI side effect publishes the same record to a banner slot and is not
modelled (no claim reads it). -/
def makeRequest (method : String) (path : String) (outcome : FetchOutcome) : RequestResult :=
  let error : ErrorType := { method := some method, path := some path, text := "" }
  match outcome with
  | .failure => .errRecord { error with text := "network error" }
  | .response status statusText body =>
      let error := { error with status := some status, statusText := some statusText }
      if !responseOk status then
        let text :=
          match body.parsed with
          | some json =>
              match getProperty json "human_readable" with
              | .ok (some v) => jsToString v
              | .ok none => stringifyPretty json
              | .error _ => body.raw
          | none => body.raw
        .errRecord { error with text := text }
      else
        match body.parsed with
        | some json => .ok json
        | none => .jsException "SyntaxError: Unexpected token in JSON"

/-! ### customSetInterval (lines 571-594): small-step machine

The single-threaded event loop is modelled by a state machine driven by
an arbitrary list of events chosen by the environment.  `pendingTimers`
counts armed, unfired timeouts created by `scheduleNext`; `inFlight`
counts started invocations of `asyncCallback` whose promise has not yet
settled.  Both are counters so that the model itself does not rule out
overlap — the absence of overlap is proved, not assumed. -/

structure SchedState where
  pendingTimers : Nat
  inFlight : Nat
  cancelled : Bool
  crashed : Bool
  started : Nat
  startedAfterCancel : Nat
deriving Repr, DecidableEq

/-- Environment events for one `customSetInterval` instance: an armed
timeout fires (running `executeCallback`, which starts an invocation of
`asyncCallback` and awaits it); an in-flight invocation's promise
settles with the value `next` (`none` models resolving with
null/undefined); or `clearCustomInterval` is called. -/
inductive SchedEvent where
  | fire
  | resolve (next : Option Nat)
  | cancel
deriving Repr, DecidableEq

/-- One step of the machine, mirroring the code:

* `fire`: only an armed timeout can fire; `executeCallback` begins and
  `await asyncCallback()` suspends it (`started`/`startedAfterCancel`
  are ghost counters recording the invocation).
* `resolve next`: `executeCallback` resumes; a null/undefined result
  throws (line 578) before `scheduleNext()`, otherwise `scheduleNext()`
  arms a new timeout (line 580) — unconditionally, whether or not
  `clearCustomInterval` has already run.
* `cancel`: `clearTimeout(timeoutId)` disarms the most recently armed
  timeout if it has not fired yet, and nothing else. -/
def schedStep (s : SchedState) : SchedEvent → SchedState
  | .fire =>
      if s.pendingTimers > 0 then
        { s with pendingTimers := s.pendingTimers - 1,
                 inFlight := s.inFlight + 1,
                 started := s.started + 1,
                 startedAfterCancel := s.startedAfterCancel + (if s.cancelled then 1 else 0) }
      else s
  | .resolve next =>
      if s.inFlight > 0 then
        match next with
        | some _ => { s with inFlight := s.inFlight - 1, pendingTimers := s.pendingTimers + 1 }
        | none => { s with inFlight := s.inFlight - 1, crashed := true }
      else s
  | .cancel => { s with pendingTimers := s.pendingTimers - 1, cancelled := true }

/-- State right after `customSetInterval` returns: the construction-time
`scheduleNext()` (line 587) has armed one timeout. -/
def schedInit : SchedState :=
  { pendingTimers := 1, inFlight := 0, cancelled := false, crashed := false,
    started := 0, startedAfterCancel := 0 }

/-- The machine run on an event list from the post-construction state. -/
def schedRun (events : List SchedEvent) : SchedState :=
  events.foldl schedStep schedInit

/-! ### customSetInterval: timed trace of an uncancelled instance

Deterministic timed semantics under the event loop: `runs n` gives the
n-th invocation's duration and the interval value its promise resolves
with.  The construction-time `scheduleNext()` uses
`currentInterval = interval`, so the first timeout fires `interval`
milliseconds after construction; each later invocation starts when the
timeout armed at the previous invocation's resolution fires. -/

/-- Start time of invocation `n` of `asyncCallback`. -/
def invocationStart (interval : Nat) (runs : Nat → Nat × Nat) : Nat → Nat
  | 0 => interval
  | n + 1 => (invocationStart interval runs n + (runs n).1) + (runs n).2

/-- Resolution time of invocation `n`: its start plus its duration. -/
def invocationEnd (interval : Nat) (runs : Nat → Nat × Nat) (n : Nat) : Nat :=
  invocationStart interval runs n + (runs n).1

/-- The interval `Root` passes to `customSetInterval` for the registry
poller (line 300: `let interval = 500`). -/
def registryPollerInitialInterval : Nat := 500

/-- The interval the `Torrent` component passes to `customSetInterval`
for the stats poller (line 193: `customSetInterval(update, 0)`). -/
def statsPollerInitialInterval : Nat := 0

/-! ### loopUntilSuccess (lines 596-617) -/

/-- A JS value as far as the `if (retry)` test is concerned. -/
inductive JsVal where
  | undefined
  | boolean (b : Bool)
deriving Repr, DecidableEq

/-- JS truthiness: `undefined` is falsy. -/
def truthy : JsVal → Bool
  | .undefined => false
  | .boolean b => b

/-- Embeds the fulfilment handler `() => { false }` at line 600: a
block-bodied arrow function whose body is the bare expression statement
`false`; with no `return` statement, calling it evaluates to
`undefined`. -/
def onFulfilledResult : JsVal := .undefined

/-- Embeds the rejection handler `() => { true }` at line 600: likewise
a block body with no `return` statement, so calling it evaluates to
`undefined`. -/
def onRejectedResult : JsVal := .undefined

/-- Embeds one `executeCallback` run of `loopUntilSuccess` (lines
599-604): `outcome` is whether the awaited `callback()` promise
fulfilled; `retry` is the settled value of `.then(handler, handler)`;
the result is whether `scheduleNext()` is called. -/
def loopExecuteCallback (outcome : Bool) : Bool :=
  let retry := if outcome then onFulfilledResult else onRejectedResult
  truthy retry

/-- Embeds `scheduleNext`'s delay expression `i !== undefined ? i :
interval` (line 607). -/
def loopScheduleDelay (interval : Nat) (i : Option Nat) : Nat :=
  match i with
  | some d => d
  | none => interval

/-- Delay of the timeout armed at construction, `scheduleNext(0)`
(line 610). -/
def loopFirstDelay (interval : Nat) : Nat :=
  loopScheduleDelay interval (some 0)

/-- Whether invocation `n` of `loopUntilSuccess`'s callback ever starts,
when invocation `k`'s outcome is `outcomes k` (`true` = fulfilled):
invocation 0 is armed at construction; invocation `n + 1` starts iff
invocation `n` started and its `executeCallback` called
`scheduleNext()`. -/
def loopInvoked (outcomes : Nat → Bool) : Nat → Bool
  | 0 => true
  | n + 1 => loopInvoked outcomes n && loopExecuteCallback (outcomes n)

/-- The outcome sequence of the failing input of the claim: the
operation rejects on its first two invocations and fulfils from the
third on. -/
def failTwiceThenSucceed : Nat → Bool :=
  fun n => decide (2 ≤ n)

/-! ### Theorems -/

/-- C4: a successful stats fetch stores the fetched stats and yields a
5000 ms next interval when `have_bytes` equals `total_bytes` and a
500 ms next interval otherwise; a failed fetch yields 10000 ms and
leaves the previously stored stats snapshot unchanged. -/
theorem C4_stats_poll_policy (prev stats : TorrentStats) (e : ErrorType) :
    (stats.snapshot.have_bytes = stats.snapshot.total_bytes →
      update (.ok stats) prev = (stats, 5000)) ∧
    (stats.snapshot.have_bytes ≠ stats.snapshot.total_bytes →
      update (.ok stats) prev = (stats, 500)) ∧
    update (.error e) prev = (prev, 10000) := by
  refine ⟨fun h => ?_, fun h => ?_, rfl⟩ <;>
    simp [update, torrentIsDone, beq_iff_eq, h]

/-- Witness for C4 at concrete stats records. -/
theorem C4_stats_poll_policy_witness :
    update (.ok ⟨⟨10, 0, 0, 0, 0, 0, 10⟩⟩) ⟨⟨0, 0, 0, 0, 0, 0, 10⟩⟩ =
      (⟨⟨10, 0, 0, 0, 0, 0, 10⟩⟩, 5000) ∧
    update (.ok ⟨⟨5, 0, 0, 0, 0, 0, 10⟩⟩) ⟨⟨0, 0, 0, 0, 0, 0, 10⟩⟩ =
      (⟨⟨5, 0, 0, 0, 0, 0, 10⟩⟩, 500) ∧
    update (.error { text := "boom" }) ⟨⟨5, 0, 0, 0, 0, 0, 10⟩⟩ =
      (⟨⟨5, 0, 0, 0, 0, 0, 10⟩⟩, 10000) :=
  ⟨(C4_stats_poll_policy ⟨⟨0, 0, 0, 0, 0, 0, 10⟩⟩ ⟨⟨10, 0, 0, 0, 0, 0, 10⟩⟩
      { text := "boom" }).1 (by decide),
   (C4_stats_poll_policy ⟨⟨0, 0, 0, 0, 0, 0, 10⟩⟩ ⟨⟨5, 0, 0, 0, 0, 0, 10⟩⟩
      { text := "boom" }).2.1 (by decide),
   (C4_stats_poll_policy ⟨⟨5, 0, 0, 0, 0, 0, 10⟩⟩ ⟨⟨5, 0, 0, 0, 0, 0, 10⟩⟩
      { text := "boom" }).2.2⟩

/-- C5: a successful registry tick replaces the task-id list, clears the
registry error and returns 500 ms; a failed tick sets the registry
error, leaves the previous task-id list unchanged and returns 5000 ms. -/
theorem C5_registry_tick_policy (s : RegistryState) (ts : List TorrentId) (e : ErrorType) :
    (registryTick (.ok ts) s).1.torrents = some ts ∧
    (registryTick (.ok ts) s).1.otherError = none ∧
    (registryTick (.ok ts) s).2 = 500 ∧
    (registryTick (.error e) s).1.torrents = s.torrents ∧
    (registryTick (.error e) s).1.otherError = some e ∧
    (registryTick (.error e) s).2 = 5000 :=
  ⟨rfl, rfl, rfl, rfl, rfl, rfl⟩

/-- C2 (code bug): `loopUntilSuccess` arms its first invocation with
delay 0, but never performs a second invocation for any outcome
sequence: the fulfilment and rejection handlers passed to `.then` at
line 600 are block-bodied arrow functions with no return statement, so
`retry` is always `undefined` and `scheduleNext()` is never reached.  On
the claim's input (fail, fail, succeed, ...) only invocation 0 runs,
where the claim requires invocations 0, 1 and 2. -/
theorem C2_loop_never_retries :
    loopFirstDelay 1000 = 0 ∧
    loopInvoked failTwiceThenSucceed 0 = true ∧
    loopInvoked failTwiceThenSucceed 1 = false ∧
    loopInvoked failTwiceThenSucceed 2 = false ∧
    ∀ (outcomes : Nat → Bool) (n : Nat), loopInvoked outcomes (n + 1) = false := by
  refine ⟨rfl, rfl, rfl, rfl, fun outcomes n => ?_⟩
  simp [loopInvoked, loopExecuteCallback, onFulfilledResult, onRejectedResult, truthy]

/-- C3 (code bug): cancelling a `customSetInterval` instance while an
invocation is in flight does not stop it.  Trace: the armed timeout
fires (invocation 1 starts), `clearCustomInterval` is called while it is
awaiting, the invocation then resolves and `executeCallback`
unconditionally re-arms the timer, and the new timeout fires — an
invocation starts after cancellation, and the instance still holds a
live timer or invocation afterwards. -/
theorem C3_cancel_does_not_stop_inflight :
    (schedRun [.fire, .cancel, .resolve (some 10000), .fire]).cancelled = true ∧
    (schedRun [.fire, .cancel, .resolve (some 10000), .fire]).startedAfterCancel = 1 ∧
    (schedRun [.fire, .cancel, .resolve (some 10000), .fire]).inFlight = 1 := by
  refine ⟨rfl, rfl, rfl⟩

/-- C9 (counterexample): with the registry poller's construction
interval of 500 ms, the first invocation is scheduled with delay 500,
not 0 — the first `scheduleNext()` uses `currentInterval = interval`. -/
theorem C9_counterexample :
    invocationStart registryPollerInitialInterval (fun _ => (0, 0)) 0 = 500 ∧
    (500 : Nat) ≠ 0 :=
  ⟨rfl, by decide⟩

/-- C9 (amended): the first invocation of a `customSetInterval` instance
is scheduled after exactly the construction interval argument; the stats
poller passes 0 so its first poll is immediate, while the registry
poller's first task-list fetch happens 500 ms after construction. -/
theorem C9_first_invocation_delay (interval : Nat) (runs : Nat → Nat × Nat) :
    invocationStart interval runs 0 = interval ∧
    invocationStart statsPollerInitialInterval runs 0 = 0 ∧
    invocationStart registryPollerInitialInterval runs 0 = 500 :=
  ⟨rfl, rfl, rfl⟩

/-- Helper: one step of the `customSetInterval` machine preserves the
bound of one armed timer or in-flight invocation in total. -/
theorem schedStep_bound {s : SchedState} (h : s.pendingTimers + s.inFlight ≤ 1)
    (e : SchedEvent) : (schedStep s e).pendingTimers + (schedStep s e).inFlight ≤ 1 := by
  cases e with
  | fire =>
      simp only [schedStep]
      split
      · simp only
        omega
      · exact h
  | resolve next =>
      simp only [schedStep]
      split
      · cases next
        · simp only
          omega
        · simp only
          omega
      · exact h
  | cancel =>
      simp only [schedStep]
      omega

/-- Helper: the bound holds along any run of the machine. -/
theorem schedRun_bound (events : List SchedEvent) (s : SchedState)
    (h : s.pendingTimers + s.inFlight ≤ 1) :
    (events.foldl schedStep s).pendingTimers + (events.foldl schedStep s).inFlight ≤ 1 := by
  induction events generalizing s with
  | nil => simpa using h
  | cons e rest ih => exact ih _ (schedStep_bound h e)

/-- C1: a `customSetInterval` instance never has two invocations in
flight: under any environment schedule, at most one invocation is
unresolved at any point, and an armed timer and an in-flight invocation
never coexist (the next invocation is armed only when the previous one
resolves); in the timed trace, for any invocation durations and returned
intervals, invocation n+1 starts no earlier than invocation n resolves. -/
theorem C1_no_overlapping_invocations (events : List SchedEvent) (interval : Nat)
    (runs : Nat → Nat × Nat) (n : Nat) :
    (schedRun events).inFlight ≤ 1 ∧
    (schedRun events).pendingTimers + (schedRun events).inFlight ≤ 1 ∧
    invocationEnd interval runs n ≤ invocationStart interval runs (n + 1) := by
  have h : (schedRun events).pendingTimers + (schedRun events).inFlight ≤ 1 :=
    schedRun_bound events schedInit (by simp [schedInit])
  refine ⟨by omega, h, ?_⟩
  simp only [invocationStart, invocationEnd]
  omega

/-- C7 (counterexample): with a 3-file manifest, toggling file 2 off,
then file 0 off, then file 0 back on leaves the selection from the reset
state as the array [1, 0]; the submitted url carries
`only_files=1,0` — the selection in toggle order — not the ascending
`only_files=0,1` the claim requires. -/
theorem C7_counterexample :
    uploadUrl 3 (handleToggleFile (handleToggleFile (handleToggleFile (resetSelection 3) 2) 0) 0)
      = "/torrents?overwrite=true&only_files=1,0" ∧
    uploadUrl 3 (handleToggleFile (handleToggleFile (handleToggleFile (resetSelection 3) 2) 0) 0)
      ≠ "/torrents?overwrite=true&only_files=0,1" :=
  ⟨rfl, by decide⟩

/-- C7 (amended): if the selection contains every manifest index the url
carries no `only_files` parameter; otherwise it carries `only_files`
whose value is the selected indices comma-joined in the selection
array's current order (manifest order with re-toggled indices appended
at the end, not necessarily ascending); and with an empty selection the
confirm button is disabled. -/
theorem C7_upload_query (n : Nat) (selectedFiles : List Nat) (loading uploading : Bool) :
    ((∀ i, i < n → i ∈ selectedFiles) → uploadUrl n selectedFiles = "/torrents?overwrite=true") ∧
    ((∃ i, i < n ∧ i ∉ selectedFiles) →
      uploadUrl n selectedFiles =
        "/torrents?overwrite=true" ++
          ("&only_files=" ++ String.intercalate "," (selectedFiles.map toString))) ∧
    (selectedFiles = [] → okButtonDisabled loading uploading selectedFiles = true) := by
  refine ⟨fun h => ?_, fun h => ?_, fun h => ?_⟩
  · simp only [uploadUrl, getSelectedFilesQueryParam, List.all_eq_true, List.mem_range,
      List.elem_iff]
    rw [if_pos h]
    simp
  · obtain ⟨i, hi, hmem⟩ := h
    simp only [uploadUrl, getSelectedFilesQueryParam, List.all_eq_true, List.mem_range,
      List.elem_iff]
    rw [if_neg (fun hx => hmem (hx i hi))]
  · simp [okButtonDisabled, h]

/-- Witness for C7 at the manifest sizes of the claim. -/
theorem C7_upload_query_witness :
    uploadUrl 5 [0, 1, 2, 3, 4] = "/torrents?overwrite=true" ∧
    uploadUrl 3 [1, 0] =
      "/torrents?overwrite=true" ++
        ("&only_files=" ++ String.intercalate "," ([1, 0].map toString)) ∧
    okButtonDisabled false false [] = true :=
  ⟨(C7_upload_query 5 [0, 1, 2, 3, 4] false false).1 (by decide),
   (C7_upload_query 3 [1, 0] false false).2.1 ⟨2, by decide, by decide⟩,
   (C7_upload_query 3 [] false false).2.2 rfl⟩

/-- C10: the selection invariant — duplicate-free indices all within the
manifest bounds — holds for the reset selection (exactly the indices
0..n-1) and is preserved by `handleToggleFile` for any toggled index
within bounds. -/
theorem C10_selection_invariant (n i : Nat) (s : List Nat) :
    SelectionInv (resetSelection n) n ∧
    (SelectionInv s n → i < n → SelectionInv (handleToggleFile s i) n) := by
  constructor
  · refine ⟨by simpa [resetSelection] using List.nodup_range n, fun j hj => ?_⟩
    simpa [resetSelection] using hj
  · rintro ⟨hnd, hb⟩ hi
    unfold handleToggleFile
    by_cases hc : s.contains i
    · rw [if_pos hc]
      refine ⟨hnd.filter _, fun j hj => hb j (List.mem_of_mem_filter hj)⟩
    · rw [if_neg hc]
      have hni : i ∉ s := fun hmem => hc (List.elem_iff.mpr hmem)
      constructor
      · simp [List.nodup_append, hnd, List.disjoint_singleton, hni]
      · intro j hj
        rcases List.mem_append.mp hj with hj | hj
        · exact hb j hj
        · have hji : j = i := List.mem_singleton.mp hj
          subst hji
          exact hi

/-- Witness for C10 at a concrete selection state. -/
theorem C10_selection_invariant_witness :
    SelectionInv (resetSelection 3) 3 ∧ SelectionInv (handleToggleFile [0, 1, 2] 1) 3 :=
  ⟨(C10_selection_invariant 3 1 [0, 1, 2]).1,
   (C10_selection_invariant 3 1 [0, 1, 2]).2
     ⟨by decide, by intro j hj; fin_cases hj <;> decide⟩ (by decide)⟩

/-- C6: a transport failure rejects with text "network error" and no
status recorded; a non-success response records status and statusText
and chooses text by the ladder — the body's `human_readable` field when
the body parses as JSON and the field is present, else the
pretty-printed JSON of the whole body, else (body not JSON) the raw body
text. -/
theorem C6_error_text_ladder (m p stx hr : String) (st : Nat) (j : Json) (body : HttpBody) :
    makeRequest m p .failure =
      .errRecord { method := some m, path := some p, status := none, statusText := none,
                   text := "network error" } ∧
    (responseOk st = false →
      (body.parsed = some j → getProperty j "human_readable" = .ok (some (.str hr)) →
        makeRequest m p (.response st stx body) =
          .errRecord { method := some m, path := some p, status := some st,
                       statusText := some stx, text := hr }) ∧
      (body.parsed = some j → getProperty j "human_readable" = .ok none →
        makeRequest m p (.response st stx body) =
          .errRecord { method := some m, path := some p, status := some st,
                       statusText := some stx, text := stringifyPretty j }) ∧
      (body.parsed = none →
        makeRequest m p (.response st stx body) =
          .errRecord { method := some m, path := some p, status := some st,
                       statusText := some stx, text := body.raw })) := by
  refine ⟨rfl, fun hok => ⟨fun hparse hprop => ?_, fun hparse hprop => ?_, fun hparse => ?_⟩⟩
  · simp [makeRequest, hok, hparse, hprop, jsToString]
  · simp [makeRequest, hok, hparse, hprop]
  · simp [makeRequest, hok, hparse]

/-- Witness for C6 at the claim's concrete responses: a 500 with body
containing `human_readable` "disk full", a 500 with a non-JSON body
"oops", and a transport failure. -/
theorem C6_error_text_ladder_witness :
    makeRequest "GET" "/torrents" .failure =
      .errRecord { method := some "GET", path := some "/torrents", status := none,
                   statusText := none, text := "network error" } ∧
    makeRequest "POST" "/torrents"
        (.response 500 "Internal Server Error"
          ⟨"", some (.obj [("human_readable", .str "disk full")])⟩) =
      .errRecord { method := some "POST", path := some "/torrents", status := some 500,
                   statusText := some "Internal Server Error", text := "disk full" } ∧
    makeRequest "POST" "/torrents" (.response 500 "Internal Server Error" ⟨"oops", none⟩) =
      .errRecord { method := some "POST", path := some "/torrents", status := some 500,
                   statusText := some "Internal Server Error", text := "oops" } :=
  ⟨(C6_error_text_ladder "GET" "/torrents" "x" "x" 500 .null ⟨"", none⟩).1,
   ((C6_error_text_ladder "POST" "/torrents" "Internal Server Error" "disk full" 500
        (.obj [("human_readable", .str "disk full")])
        ⟨"", some (.obj [("human_readable", .str "disk full")])⟩).2 (by decide)).1 rfl rfl,
   ((C6_error_text_ladder "POST" "/torrents" "Internal Server Error" "x" 500 .null
        ⟨"oops", none⟩).2 (by decide)).2.2 rfl⟩

/-- C8 (counterexample): a success-status response whose body is not
valid JSON makes `makeRequest` reject with the raw SyntaxError thrown by
`response.json()`, not with an ErrorType record — line 279 has no
try/catch around the parse. -/
theorem C8_counterexample :
    (makeRequest "GET" "/torrents" (.response 200 "OK" ⟨"oops", none⟩)).isNormalized = false :=
  rfl

/-- C8 (amended): transport failures and non-success HTTP statuses
(whatever the error body) always reject with the unified ErrorType
record; but a success-status response whose body fails to parse as JSON
rejects with the raw unnormalized parse exception. -/
theorem C8_failure_normalization (m p stx : String) (st : Nat) (body : HttpBody) :
    (makeRequest m p .failure).isErrorRecord = true ∧
    (responseOk st = false →
      (makeRequest m p (.response st stx body)).isErrorRecord = true) ∧
    (responseOk st = true → body.parsed = none →
      (makeRequest m p (.response st stx body)).isNormalized = false) := by
  refine ⟨rfl, fun hok => ?_, fun hok hparse => ?_⟩
  · simp [makeRequest, hok, RequestResult.isErrorRecord]
  · simp [makeRequest, hok, hparse, RequestResult.isNormalized]

/-- Witness for C8 at concrete statuses 500 and 200. -/
theorem C8_failure_normalization_witness :
    (makeRequest "GET" "/torrents" (.response 500 "Internal Server Error" ⟨"oops", none⟩)).isErrorRecord
      = true ∧
    (makeRequest "GET" "/torrents" (.response 200 "OK" ⟨"oops", none⟩)).isNormalized = false :=
  ⟨(C8_failure_normalization "GET" "/torrents" "Internal Server Error" 500 ⟨"oops", none⟩).2.1
      (by decide),
   (C8_failure_normalization "GET" "/torrents" "OK" 200 ⟨"oops", none⟩).2.2 (by decide) rfl⟩

end RqbitWebui
